import Mathlib

/-!
Shallow embedding of the beer-baseball rules engine of this repository
(`src/backend/game_engine.py`, with the state columns declared in
`src/backend/models.py`).  The engine mutates three things: the `Game` row,
the lazily created `PlayerGameStats` rows, and the append-only `GameEvent`
log.  We model that machine state as `EngineState` and translate every
method of `GameEngine` into a function `EngineState → EngineState`
(paired with an `Option Err` where the Python code can raise `ValueError`,
so that the in-memory state at the moment of the raise stays observable,
exactly as it does for the Python objects).  Players are identified by
their integer ids; since `_get_or_create_stats` materialises an all-zero
row on first touch and rows are uniquely keyed by (player, game), the
stats table of one game is modelled as a total map from player id to the
counter record, defaulting to zeros.  `session.flush()`
(`_refresh_scores`) performs no in-memory state change and is a no-op
here; `GameSnapshot` is a read-only projection and is not needed for the
properties below.
-/

namespace BeerBaseball

/-- `HalfInning` enum from `models.py`. -/
inductive HalfInning
  | top
  | bottom
  deriving DecidableEq, Repr

/-- `GameStatus` enum from `models.py`. -/
inductive GameStatus
  | scheduled
  | in_progress
  | final
  deriving DecidableEq, Repr

/-- `EventType` enum from `models.py`. -/
inductive EventType
  | shot
  | steal
  | bunt
  | knock
  | rotation
  | manual_adjustment
  deriving DecidableEq, Repr

/-- The counter columns of a `PlayerGameStats` row (`models.py`). -/
@[ext]
structure Stats where
  points_for : Nat
  points_against : Nat
  shots_taken : Nat
  shots_first : Nat
  shots_second : Nat
  shots_third : Nat
  shots_home : Nat
  shots_grandslam : Nat
  shots_strike : Nat
  shots_out : Nat
  steals_success : Nat
  steals_bonus : Nat
  steals_fail : Nat
  bunts_success : Nat
  bunts_bonus : Nat
  bunts_fail : Nat
  catches_made : Nat
  catches_missed : Nat
  knocks_first : Nat
  knocks_second : Nat
  knocks_third : Nat
  deriving DecidableEq, Repr

/-- The all-zero row that `_get_or_create_stats` creates. -/
def zeroStats : Stats :=
  { points_for := 0, points_against := 0, shots_taken := 0, shots_first := 0,
    shots_second := 0, shots_third := 0, shots_home := 0, shots_grandslam := 0,
    shots_strike := 0, shots_out := 0, steals_success := 0, steals_bonus := 0,
    steals_fail := 0, bunts_success := 0, bunts_bonus := 0, bunts_fail := 0,
    catches_made := 0, catches_missed := 0, knocks_first := 0,
    knocks_second := 0, knocks_third := 0 }

/-- The mutable state columns of a `Game` row (`models.py`). -/
@[ext]
structure Game where
  inning : Nat
  half : HalfInning
  outs : Nat
  strikes : Nat
  home_score : Nat
  away_score : Nat
  first_base : Bool
  second_base : Bool
  third_base : Bool
  status : GameStatus
  offensive_shooter_id : Option Nat
  offensive_drinker_id : Option Nat
  defensive_catcher_id : Option Nat
  defensive_drinker_id : Option Nat
  deriving DecidableEq, Repr

/-- A `GameEvent` row as created by `GameEngine._log_event`: the metadata is
only ever the knock count triple `{first, second, third}` or absent. -/
@[ext]
structure GameEvent where
  event_type : EventType
  outcome : String
  offense_player : Option Nat
  defense_player : Option Nat
  metadata : Option (Int × Int × Int)
  deriving DecidableEq, Repr

/-- The in-memory state that one `GameEngine` call can touch. -/
@[ext]
structure EngineState where
  game : Game
  stats : Nat → Stats
  events : List GameEvent

/-- The `ValueError`s raised by `game_engine.py`, one constructor per
distinct message. -/
inductive Err
  | missingParticipant
  | unknownShotOutcome (outcome : String)
  | unknownStealOutcome (outcome : String)
  | unknownBuntOutcome (outcome : String)
  | unknownBase (base : String)
  deriving DecidableEq, Repr

/-- `stats.field += 1` guarded by `if stats:` in the source: the stats
handle is `none` exactly when the corresponding player is `None`. -/
def bumpStats (m : Nat → Stats) (pid : Option Nat) (f : Stats → Stats) :
    Nat → Stats :=
  match pid with
  | some p => fun q => if q = p then f (m p) else m q
  | none => m

/-- Apply a counter mutation to the stats row behind an optional handle. -/
def bump (st : EngineState) (pid : Option Nat) (f : Stats → Stats) :
    EngineState :=
  { st with stats := bumpStats st.stats pid f }

/-- Python's `shooter or self.game.offensive_shooter` on optional players. -/
def orDefault (a b : Option Nat) : Option Nat :=
  match a with
  | some p => some p
  | none => b

/-- The four role slots of a game (`_swap_roles` addresses them by name). -/
inductive Role
  | offensive_shooter
  | offensive_drinker
  | defensive_catcher
  | defensive_drinker
  deriving DecidableEq, Repr

def getRole (g : Game) : Role → Option Nat
  | Role.offensive_shooter => g.offensive_shooter_id
  | Role.offensive_drinker => g.offensive_drinker_id
  | Role.defensive_catcher => g.defensive_catcher_id
  | Role.defensive_drinker => g.defensive_drinker_id

def setRole (g : Game) (r : Role) (v : Option Nat) : Game :=
  match r with
  | Role.offensive_shooter => { g with offensive_shooter_id := v }
  | Role.offensive_drinker => { g with offensive_drinker_id := v }
  | Role.defensive_catcher => { g with defensive_catcher_id := v }
  | Role.defensive_drinker => { g with defensive_drinker_id := v }

/-- `GameEngine._swap_roles`. -/
def swap_roles (g : Game) (role_a role_b : Role) : Game :=
  let current_a := getRole g role_a
  let current_b := getRole g role_b
  setRole (setRole g role_a current_b) role_b current_a

/-- `GameEngine._log_event`: appends one immutable event record. -/
def log_event (st : EngineState) (event_type : EventType) (outcome : String)
    (offense defense : Option Nat) (md : Option (Int × Int × Int)) :
    EngineState :=
  { st with events := st.events ++
      [{ event_type := event_type, outcome := outcome,
         offense_player := offense, defense_player := defense,
         metadata := md }] }

/-- `GameEngine._mark_in_progress`. -/
def mark_in_progress (st : EngineState) : EngineState :=
  if st.game.status = GameStatus.scheduled then
    { st with game := { st.game with status := GameStatus.in_progress } }
  else st

/-- `GameEngine._score_run` (its `player` argument is unused in the source;
the stats handle already identifies the row to credit). -/
def score_run (st : EngineState) (stats : Option Nat) : EngineState :=
  let g :=
    if st.game.half = HalfInning.top then
      { st.game with away_score := st.game.away_score + 1 }
    else
      { st.game with home_score := st.game.home_score + 1 }
  { st with game := g,
            stats := bumpStats st.stats stats
              (fun s => { s with points_for := s.points_for + 1 }) }

/-- `GameEngine._increment_outs`. -/
def increment_outs (st : EngineState) : EngineState :=
  let g := { st.game with outs := st.game.outs + 1 }
  if g.outs = 1 then
    let g := swap_roles g Role.offensive_shooter Role.offensive_drinker
    let g := { g with strikes := 0 }
    log_event { st with game := g } EventType.rotation "swap_offense"
      none none none
  else if 2 ≤ g.outs then
    let g := swap_roles g Role.defensive_drinker Role.offensive_drinker
    let g := swap_roles g Role.offensive_shooter Role.defensive_catcher
    let g := { g with outs := 0, strikes := 0 }
    let g := { g with half := if g.half = HalfInning.top then
                 HalfInning.bottom else HalfInning.top }
    let g := if g.half = HalfInning.top then
               { g with inning := g.inning + 1 } else g
    log_event { st with game := g } EventType.rotation "full_rotation"
      none none none
  else
    { st with game := g }

/-- `GameEngine._handle_strike`. -/
def handle_strike (st : EngineState) : EngineState :=
  if st.game.strikes = 2 then increment_outs st
  else { st with game := { st.game with strikes := st.game.strikes + 1 } }

/-- The final `self.game.*_base = temp_*` assignment shared by all apply
methods (the trailing `_refresh_scores` is only a `session.flush()`). -/
def assign_bases (st : EngineState) (f s t : Bool) : EngineState :=
  { st with game :=
      { st.game with first_base := f, second_base := s, third_base := t } }

/-- `GameEngine._apply_shot`.  `ostats`/`dstats` are the shooter's and
catcher's stats handles (always present at the call site after
`_validate_players`); the `shooter`/`catcher` player arguments of the
source feed only `_score_run`'s unused parameter and are dropped. -/
def apply_shot (st0 : EngineState) (outcome : String)
    (ostats dstats : Option Nat) : EngineState × Option Err :=
  let st := bump st0 (ostats) (fun s => { s with shots_taken := s.shots_taken + 1 })
  if outcome = "first" then
    let temp_first := true
    let temp_second := st.game.first_base
    let temp_third := st.game.second_base
    let st := if st.game.third_base then score_run st ostats else st
    let st := bump st (ostats) (fun s => { s with shots_first := s.shots_first + 1 })
    let st := { st with game := { st.game with strikes := 0 } }
    (assign_bases st temp_first temp_second temp_third, none)
  else if outcome = "second" then
    let temp_second := true
    let temp_third := st.game.first_base
    let st := if st.game.second_base then score_run st ostats else st
    let st := if st.game.third_base then score_run st ostats else st
    let st := bump st (ostats) (fun s => { s with shots_second := s.shots_second + 1 })
    let st := { st with game := { st.game with strikes := 0 } }
    (assign_bases st false temp_second temp_third, none)
  else if outcome = "third" then
    let temp_third := true
    let st := if st.game.first_base then score_run st ostats else st
    let st := if st.game.second_base then score_run st ostats else st
    let st := if st.game.third_base then score_run st ostats else st
    let st := bump st (ostats) (fun s => { s with shots_third := s.shots_third + 1 })
    let st := { st with game := { st.game with strikes := 0 } }
    (assign_bases st false false temp_third, none)
  else if outcome = "home" then
    let st := score_run st ostats
    let st := if st.game.first_base then score_run st ostats else st
    let st := if st.game.second_base then score_run st ostats else st
    let st := if st.game.third_base then score_run st ostats else st
    let st := bump st (ostats) (fun s => { s with shots_home := s.shots_home + 1 })
    let st := { st with game := { st.game with strikes := 0 } }
    (assign_bases st false false false, none)
  else if outcome = "grandslam" then
    -- `for _ in range(4): self._score_run(...)`
    let st := score_run st ostats
    let st := score_run st ostats
    let st := score_run st ostats
    let st := score_run st ostats
    let st := bump st (ostats) (fun s => { s with shots_grandslam := s.shots_grandslam + 1 })
    let st := { st with game := { st.game with strikes := 0 } }
    (assign_bases st false false false, none)
  else if outcome = "strike" then
    let st := bump st (ostats) (fun s => { s with shots_strike := s.shots_strike + 1 })
    let st := bump st (dstats) (fun s => { s with catches_missed := s.catches_missed + 1 })
    -- (the source's local aliases `shooter_stats`/`catcher_stats` are dead)
    let st := handle_strike st
    let temp_first := st.game.first_base
    let temp_second := st.game.second_base
    let temp_third := st.game.third_base
    (assign_bases st temp_first temp_second temp_third, none)
  else if outcome = "out" then
    let st := bump st (ostats) (fun s => { s with shots_out := s.shots_out + 1 })
    let st := bump st (dstats) (fun s => { s with catches_made := s.catches_made + 1 })
    let temp_first := st.game.first_base
    let temp_second := st.game.second_base
    let temp_third := st.game.third_base
    let st := increment_outs st
    (assign_bases st temp_first temp_second temp_third, none)
  else
    (st, some (Err.unknownShotOutcome outcome))

/-- `GameEngine._apply_steal`. -/
def apply_steal (st : EngineState) (outcome : String)
    (ostats dstats : Option Nat) : EngineState × Option Err :=
  if outcome = "success" then
    let st := bump st (ostats) (fun s => { s with steals_success := s.steals_success + 1 })
    let st := bump st (dstats) (fun s => { s with catches_missed := s.catches_missed + 1 })
    let temp_second := st.game.first_base
    let temp_third := st.game.second_base
    let st := if st.game.third_base then score_run st ostats else st
    (assign_bases st false temp_second temp_third, none)
  else if outcome = "bonus" then
    let st := bump st (ostats) (fun s => { s with steals_bonus := s.steals_bonus + 1 })
    let st := bump st (dstats) (fun s => { s with catches_missed := s.catches_missed + 1 })
    let temp_third := st.game.first_base
    let st := if st.game.second_base then score_run st ostats else st
    let st := if st.game.third_base then score_run st ostats else st
    (assign_bases st false false temp_third, none)
  else if outcome = "fail" then
    let st := bump st (ostats) (fun s => { s with steals_fail := s.steals_fail + 1 })
    let st := bump st (dstats) (fun s => { s with catches_made := s.catches_made + 1 })
    let st := increment_outs st
    (assign_bases st false false false, none)
  else
    (st, some (Err.unknownStealOutcome outcome))

/-- `GameEngine._apply_bunt`. -/
def apply_bunt (st : EngineState) (outcome : String)
    (ostats dstats : Option Nat) : EngineState × Option Err :=
  if outcome = "success" then
    let st := bump st (ostats) (fun s => { s with bunts_success := s.bunts_success + 1 })
    let st := bump st (dstats) (fun s => { s with catches_missed := s.catches_missed + 1 })
    let temp_first := true
    let temp_second := st.game.first_base
    let temp_third := st.game.second_base
    let st := if st.game.third_base then score_run st ostats else st
    let st := { st with game := { st.game with strikes := 0 } }
    (assign_bases st temp_first temp_second temp_third, none)
  else if outcome = "bonus" then
    let st := bump st (ostats) (fun s => { s with bunts_bonus := s.bunts_bonus + 1 })
    let st := bump st (dstats) (fun s => { s with catches_missed := s.catches_missed + 1 })
    let temp_second := true
    let temp_third := st.game.first_base
    let st := if st.game.second_base then score_run st ostats else st
    let st := if st.game.third_base then score_run st ostats else st
    let st := { st with game := { st.game with strikes := 0 } }
    (assign_bases st false temp_second temp_third, none)
  else if outcome = "fail" then
    let st := bump st (ostats) (fun s => { s with bunts_fail := s.bunts_fail + 1 })
    let st := bump st (dstats) (fun s => { s with catches_made := s.catches_made + 1 })
    let st := increment_outs st
    (assign_bases st false false false, none)
  else
    (st, some (Err.unknownBuntOutcome outcome))

/-- `GameEngine._handle_knock_cycle` (its `shooter` argument feeds only
`_score_run`'s unused parameter and is dropped). -/
def handle_knock_cycle (st : EngineState) (base : String)
    (ostats : Option Nat) : EngineState × Option Err :=
  if base = "first" then
    let temp_first := true
    let temp_second := st.game.first_base
    let temp_third := st.game.second_base
    let st := if st.game.third_base then score_run st ostats else st
    (assign_bases st temp_first temp_second temp_third, none)
  else if base = "second" then
    let temp_second := true
    let temp_third := st.game.first_base
    let st := if st.game.second_base then score_run st ostats else st
    let st := if st.game.third_base then score_run st ostats else st
    (assign_bases st false temp_second temp_third, none)
  else if base = "third" then
    let temp_third := true
    let st := if st.game.first_base then score_run st ostats else st
    let st := if st.game.second_base then score_run st ostats else st
    let st := if st.game.third_base then score_run st ostats else st
    (assign_bases st false false temp_third, none)
  else
    (st, some (Err.unknownBase base))

/-- One `for _ in range(n)` loop of `_apply_knock`: per iteration, bump the
catcher's `knocks_*` counter (`bumpf` applied through `dstats`) and run one
knock cycle; a raise aborts the loop. -/
def knock_loop (bumpf : Stats → Stats) (base : String)
    (ostats dstats : Option Nat) : Nat → EngineState → EngineState × Option Err
  | 0, st => (st, none)
  | Nat.succ k, st =>
    let st := { st with stats := bumpStats st.stats dstats bumpf }
    match handle_knock_cycle st base ostats with
    | (st', some e) => (st', some e)
    | (st', none) => knock_loop bumpf base ostats dstats k st'

/-- `GameEngine._apply_knock`: the counts arrive as Python ints
(possibly negative from the HTTP layer); `range(n)` iterates
`max n 0 = n.toNat` times. -/
def apply_knock (st : EngineState) (first second third : Int)
    (ostats dstats : Option Nat) : EngineState × Option Err :=
  match knock_loop (fun s => { s with knocks_first := s.knocks_first + 1 })
      "first" ostats dstats first.toNat st with
  | (st, some e) => (st, some e)
  | (st, none) =>
    match knock_loop (fun s => { s with knocks_second := s.knocks_second + 1 })
        "second" ostats dstats second.toNat st with
    | (st, some e) => (st, some e)
    | (st, none) =>
      knock_loop (fun s => { s with knocks_third := s.knocks_third + 1 })
        "third" ostats dstats third.toNat st

/-- `GameEngine.record_shot` (the returned snapshot is a projection of the
final state and is omitted; `_get_or_create_stats` is a no-op under the
total-map model of the stats table). -/
def record_shot (st : EngineState) (outcome : String)
    (shooter catcher : Option Nat) : EngineState × Option Err :=
  let st := mark_in_progress st
  let shooter := orDefault shooter st.game.offensive_shooter_id
  let catcher := orDefault catcher st.game.defensive_catcher_id
  match shooter, catcher with
  | some sp, some cp =>
    match apply_shot st outcome (some sp) (some cp) with
    | (st, some e) => (st, some e)
    | (st, none) =>
      (log_event st EventType.shot outcome (some sp) (some cp) none, none)
  | _, _ => (st, some Err.missingParticipant)

/-- `GameEngine.record_steal`. -/
def record_steal (st : EngineState) (outcome : String)
    (offense defense : Option Nat) : EngineState × Option Err :=
  let st := mark_in_progress st
  let offense := orDefault offense st.game.offensive_drinker_id
  let defense := orDefault defense st.game.defensive_drinker_id
  match offense, defense with
  | some op, some dp =>
    match apply_steal st outcome (some op) (some dp) with
    | (st, some e) => (st, some e)
    | (st, none) =>
      (log_event st EventType.steal outcome (some op) (some dp) none, none)
  | _, _ => (st, some Err.missingParticipant)

/-- `GameEngine.record_bunt`. -/
def record_bunt (st : EngineState) (outcome : String)
    (offense defense : Option Nat) : EngineState × Option Err :=
  let st := mark_in_progress st
  let offense := orDefault offense st.game.offensive_drinker_id
  let defense := orDefault defense st.game.defensive_drinker_id
  match offense, defense with
  | some op, some dp =>
    match apply_bunt st outcome (some op) (some dp) with
    | (st, some e) => (st, some e)
    | (st, none) =>
      (log_event st EventType.bunt outcome (some op) (some dp) none, none)
  | _, _ => (st, some Err.missingParticipant)

/-- `GameEngine.record_knock`. -/
def record_knock (st : EngineState) (first second third : Int) :
    EngineState × Option Err :=
  let st := mark_in_progress st
  match st.game.offensive_shooter_id, st.game.defensive_catcher_id with
  | some sp, some cp =>
    match apply_knock st first second third (some sp) (some cp) with
    | (st, some e) => (st, some e)
    | (st, none) =>
      (log_event st EventType.knock "update" (some sp) (some cp)
        (some (first, second, third)), none)
  | _, _ => (st, some Err.missingParticipant)

/-- One call of the engine's public event-recording API. -/
inductive Op
  | shot (outcome : String) (shooter catcher : Option Nat)
  | steal (outcome : String) (offense defense : Option Nat)
  | bunt (outcome : String) (offense defense : Option Nat)
  | knock (first second third : Int)

def runOp (st : EngineState) : Op → EngineState × Option Err
  | Op.shot outcome a b => record_shot st outcome a b
  | Op.steal outcome a b => record_steal st outcome a b
  | Op.bunt outcome a b => record_bunt st outcome a b
  | Op.knock f s t => record_knock st f s t

/-- The state after a sequence of engine operations (the in-memory state is
threaded on whether or not an operation raised, as for the Python objects). -/
def runOps (st : EngineState) : List Op → EngineState
  | [] => st
  | op :: ops => runOps (runOp st op).1 ops

/-- Number of `rotation` log records: each `_increment_outs` call appends
exactly one (either `swap_offense` or `full_rotation`). -/
def countRotations (evs : List GameEvent) : Nat :=
  evs.countP (fun e => decide (e.event_type = EventType.rotation))


/-- Flip of a half inning, as written in `_increment_outs`. -/
def flipHalf (h : HalfInning) : HalfInning :=
  if h = HalfInning.top then HalfInning.bottom else HalfInning.top

/-- A freshly created game row (`models.py` column defaults) with all four
role slots assigned, used to instantiate universally quantified theorems. -/
def initGame : Game :=
  { inning := 1, half := HalfInning.top, outs := 0, strikes := 0,
    home_score := 0, away_score := 0,
    first_base := false, second_base := false, third_base := false,
    status := GameStatus.scheduled,
    offensive_shooter_id := some 1, offensive_drinker_id := some 2,
    defensive_catcher_id := some 3, defensive_drinker_id := some 4 }

/-- Fresh engine state over `initGame`: no stats rows touched, empty log. -/
def stA : EngineState :=
  { game := initGame, stats := fun _ => zeroStats, events := [] }

/-- Engine state over `initGame` with one out already recorded. -/
def stB : EngineState :=
  { stA with game := { initGame with outs := 1 } }

/-- Same state but with the offensive shooter slot empty. -/
def stMissing : EngineState :=
  { stA with game := { initGame with offensive_shooter_id := none } }

/-- The per-unit `knocks_*` counter bump of `_apply_knock` for a base. -/
def knockBump (base : String) : Stats → Stats :=
  if base = "second" then fun x => { x with knocks_second := x.knocks_second + 1 }
  else if base = "third" then fun x => { x with knocks_third := x.knocks_third + 1 }
  else fun x => { x with knocks_first := x.knocks_first + 1 }

/-- One knock micro-event: bump the catcher's per-base knock counter, then
run one `_handle_knock_cycle` against the current base state (which never
raises for the three known bases). -/
def knockUnit (base : String) (sp cp : Nat) (st : EngineState) : EngineState :=
  (handle_knock_cycle
    { st with stats := bumpStats st.stats (some cp) (knockBump base) }
    base (some sp)).1

/-! ### Field-level facts about the state helpers -/

@[simp] theorem bump_game (st : EngineState) (pid : Option Nat) (f : Stats → Stats) :
    (bump st pid f).game = st.game := rfl

@[simp] theorem bump_events (st : EngineState) (pid : Option Nat) (f : Stats → Stats) :
    (bump st pid f).events = st.events := rfl

@[simp] theorem orDefault_none (b : Option Nat) : orDefault none b = b := rfl

@[simp] theorem orDefault_some (a : Nat) (b : Option Nat) :
    orDefault (some a) b = some a := rfl

theorem bumpStats_none (m : Nat → Stats) (f : Stats → Stats) :
    bumpStats m none f = m := rfl

@[simp] theorem bumpStats_some_same (m : Nat → Stats) (p : Nat) (f : Stats → Stats) :
    bumpStats m (some p) f p = f (m p) := by
  simp [bumpStats]

theorem bumpStats_some_apply (m : Nat → Stats) (p q : Nat) (f : Stats → Stats) :
    bumpStats m (some p) f q = if q = p then f (m p) else m q := rfl

@[simp] theorem log_event_game (st : EngineState) (t : EventType) (oc : String)
    (a b : Option Nat) (md : Option (Int × Int × Int)) :
    (log_event st t oc a b md).game = st.game := rfl

@[simp] theorem log_event_stats (st : EngineState) (t : EventType) (oc : String)
    (a b : Option Nat) (md : Option (Int × Int × Int)) :
    (log_event st t oc a b md).stats = st.stats := rfl

@[simp] theorem log_event_events (st : EngineState) (t : EventType) (oc : String)
    (a b : Option Nat) (md : Option (Int × Int × Int)) :
    (log_event st t oc a b md).events =
      st.events ++ [{ event_type := t, outcome := oc, offense_player := a,
                      defense_player := b, metadata := md }] := rfl

@[simp] theorem assign_bases_stats (st : EngineState) (a b c : Bool) :
    (assign_bases st a b c).stats = st.stats := rfl

@[simp] theorem assign_bases_events (st : EngineState) (a b c : Bool) :
    (assign_bases st a b c).events = st.events := rfl

@[simp] theorem assign_bases_first (st : EngineState) (a b c : Bool) :
    (assign_bases st a b c).game.first_base = a := rfl

@[simp] theorem assign_bases_second (st : EngineState) (a b c : Bool) :
    (assign_bases st a b c).game.second_base = b := rfl

@[simp] theorem assign_bases_third (st : EngineState) (a b c : Bool) :
    (assign_bases st a b c).game.third_base = c := rfl

@[simp] theorem assign_bases_outs (st : EngineState) (a b c : Bool) :
    (assign_bases st a b c).game.outs = st.game.outs := rfl

@[simp] theorem assign_bases_strikes (st : EngineState) (a b c : Bool) :
    (assign_bases st a b c).game.strikes = st.game.strikes := rfl

@[simp] theorem assign_bases_home_score (st : EngineState) (a b c : Bool) :
    (assign_bases st a b c).game.home_score = st.game.home_score := rfl

@[simp] theorem assign_bases_away_score (st : EngineState) (a b c : Bool) :
    (assign_bases st a b c).game.away_score = st.game.away_score := rfl

@[simp] theorem assign_bases_half (st : EngineState) (a b c : Bool) :
    (assign_bases st a b c).game.half = st.game.half := rfl

@[simp] theorem assign_bases_inning (st : EngineState) (a b c : Bool) :
    (assign_bases st a b c).game.inning = st.game.inning := rfl

@[simp] theorem assign_bases_status (st : EngineState) (a b c : Bool) :
    (assign_bases st a b c).game.status = st.game.status := rfl

@[simp] theorem assign_bases_shooter (st : EngineState) (a b c : Bool) :
    (assign_bases st a b c).game.offensive_shooter_id =
      st.game.offensive_shooter_id := rfl

@[simp] theorem assign_bases_odrinker (st : EngineState) (a b c : Bool) :
    (assign_bases st a b c).game.offensive_drinker_id =
      st.game.offensive_drinker_id := rfl

@[simp] theorem assign_bases_catcher (st : EngineState) (a b c : Bool) :
    (assign_bases st a b c).game.defensive_catcher_id =
      st.game.defensive_catcher_id := rfl

@[simp] theorem assign_bases_ddrinker (st : EngineState) (a b c : Bool) :
    (assign_bases st a b c).game.defensive_drinker_id =
      st.game.defensive_drinker_id := rfl

@[simp] theorem mark_in_progress_eq (st : EngineState) :
    mark_in_progress st =
      { st with game := { st.game with status :=
          if st.game.status = GameStatus.scheduled then GameStatus.in_progress
          else st.game.status } } := by
  unfold mark_in_progress
  split <;> rfl

@[simp] theorem score_run_outs (st : EngineState) (o : Option Nat) :
    (score_run st o).game.outs = st.game.outs := by
  simp only [score_run] ; split <;> rfl

@[simp] theorem score_run_strikes (st : EngineState) (o : Option Nat) :
    (score_run st o).game.strikes = st.game.strikes := by
  simp only [score_run] ; split <;> rfl

@[simp] theorem score_run_half (st : EngineState) (o : Option Nat) :
    (score_run st o).game.half = st.game.half := by
  simp only [score_run] ; split <;> rfl

@[simp] theorem score_run_inning (st : EngineState) (o : Option Nat) :
    (score_run st o).game.inning = st.game.inning := by
  simp only [score_run] ; split <;> rfl

@[simp] theorem score_run_status (st : EngineState) (o : Option Nat) :
    (score_run st o).game.status = st.game.status := by
  simp only [score_run] ; split <;> rfl

@[simp] theorem score_run_first (st : EngineState) (o : Option Nat) :
    (score_run st o).game.first_base = st.game.first_base := by
  simp only [score_run] ; split <;> rfl

@[simp] theorem score_run_second (st : EngineState) (o : Option Nat) :
    (score_run st o).game.second_base = st.game.second_base := by
  simp only [score_run] ; split <;> rfl

@[simp] theorem score_run_third (st : EngineState) (o : Option Nat) :
    (score_run st o).game.third_base = st.game.third_base := by
  simp only [score_run] ; split <;> rfl

@[simp] theorem score_run_shooter (st : EngineState) (o : Option Nat) :
    (score_run st o).game.offensive_shooter_id =
      st.game.offensive_shooter_id := by
  simp only [score_run] ; split <;> rfl

@[simp] theorem score_run_odrinker (st : EngineState) (o : Option Nat) :
    (score_run st o).game.offensive_drinker_id =
      st.game.offensive_drinker_id := by
  simp only [score_run] ; split <;> rfl

@[simp] theorem score_run_catcher (st : EngineState) (o : Option Nat) :
    (score_run st o).game.defensive_catcher_id =
      st.game.defensive_catcher_id := by
  simp only [score_run] ; split <;> rfl

@[simp] theorem score_run_ddrinker (st : EngineState) (o : Option Nat) :
    (score_run st o).game.defensive_drinker_id =
      st.game.defensive_drinker_id := by
  simp only [score_run] ; split <;> rfl

@[simp] theorem score_run_events (st : EngineState) (o : Option Nat) :
    (score_run st o).events = st.events := rfl

@[simp] theorem score_run_away (st : EngineState) (o : Option Nat) :
    (score_run st o).game.away_score =
      if st.game.half = HalfInning.top then st.game.away_score + 1
      else st.game.away_score := by
  simp only [score_run] ; split <;> simp_all

@[simp] theorem score_run_home (st : EngineState) (o : Option Nat) :
    (score_run st o).game.home_score =
      if st.game.half = HalfInning.top then st.game.home_score
      else st.game.home_score + 1 := by
  simp only [score_run] ; split <;> simp_all

@[simp] theorem score_run_stats (st : EngineState) (o : Option Nat) :
    (score_run st o).stats =
      bumpStats st.stats o (fun s => { s with points_for := s.points_for + 1 }) :=
  rfl

@[simp] theorem status_mark (st : EngineState) :
    (mark_in_progress st).game.status =
      (if st.game.status = GameStatus.scheduled then GameStatus.in_progress
       else st.game.status) := by
  rw [mark_in_progress_eq]

@[simp] theorem mark_shooter (st : EngineState) :
    (mark_in_progress st).game.offensive_shooter_id =
      st.game.offensive_shooter_id := by
  rw [mark_in_progress_eq]

@[simp] theorem mark_odrinker (st : EngineState) :
    (mark_in_progress st).game.offensive_drinker_id =
      st.game.offensive_drinker_id := by
  rw [mark_in_progress_eq]

@[simp] theorem mark_catcher (st : EngineState) :
    (mark_in_progress st).game.defensive_catcher_id =
      st.game.defensive_catcher_id := by
  rw [mark_in_progress_eq]

@[simp] theorem mark_ddrinker (st : EngineState) :
    (mark_in_progress st).game.defensive_drinker_id =
      st.game.defensive_drinker_id := by
  rw [mark_in_progress_eq]

@[simp] theorem mark_strikes (st : EngineState) :
    (mark_in_progress st).game.strikes = st.game.strikes := by
  rw [mark_in_progress_eq]

@[simp] theorem mark_outs (st : EngineState) :
    (mark_in_progress st).game.outs = st.game.outs := by
  rw [mark_in_progress_eq]

@[simp] theorem mark_stats (st : EngineState) :
    (mark_in_progress st).stats = st.stats := by
  rw [mark_in_progress_eq]

@[simp] theorem mark_events (st : EngineState) :
    (mark_in_progress st).events = st.events := by
  rw [mark_in_progress_eq]



/-! ### Closed forms for the out and strike sub-rules -/

/-- Master closed form of `_increment_outs`: the first out swaps the two
offensive roles; the second performs the full rotation, resets outs and
strikes, flips the half and bumps the inning when the new half is `top`. -/
theorem increment_outs_eq (st : EngineState) :
    increment_outs st =
      if st.game.outs = 0 then
        log_event { st with game := { st.game with
            outs := 1, strikes := 0,
            offensive_shooter_id := st.game.offensive_drinker_id,
            offensive_drinker_id := st.game.offensive_shooter_id } }
          EventType.rotation "swap_offense" none none none
      else
        log_event { st with game := { st.game with
            inning := if st.game.half = HalfInning.bottom then
              st.game.inning + 1 else st.game.inning,
            half := flipHalf st.game.half,
            outs := 0, strikes := 0,
            offensive_shooter_id := st.game.defensive_catcher_id,
            offensive_drinker_id := st.game.defensive_drinker_id,
            defensive_catcher_id := st.game.offensive_shooter_id,
            defensive_drinker_id := st.game.offensive_drinker_id } }
          EventType.rotation "full_rotation" none none none := by
  rcases st with ⟨⟨inn, half, outs, strikes, hs, as, b1, b2, b3, stat,
    r1, r2, r3, r4⟩, sm, evs⟩
  cases outs with
  | zero => cases half <;> rfl
  | succ k =>
      cases half <;>
        simp [increment_outs, swap_roles, getRole, setRole, log_event, flipHalf]

theorem increment_outs_outs (st : EngineState) :
    (increment_outs st).game.outs = if st.game.outs = 0 then 1 else 0 := by
  rw [increment_outs_eq] ; split_ifs <;> rfl

theorem increment_outs_outs_le_one (st : EngineState) :
    (increment_outs st).game.outs ≤ 1 := by
  rw [increment_outs_outs] ; split_ifs <;> omega

theorem increment_outs_strikes (st : EngineState) :
    (increment_outs st).game.strikes = 0 := by
  rw [increment_outs_eq] ; split_ifs <;> rfl

theorem increment_outs_home_score (st : EngineState) :
    (increment_outs st).game.home_score = st.game.home_score := by
  rw [increment_outs_eq] ; split_ifs <;> rfl

theorem increment_outs_away_score (st : EngineState) :
    (increment_outs st).game.away_score = st.game.away_score := by
  rw [increment_outs_eq] ; split_ifs <;> rfl

theorem increment_outs_first (st : EngineState) :
    (increment_outs st).game.first_base = st.game.first_base := by
  rw [increment_outs_eq] ; split_ifs <;> rfl

theorem increment_outs_second (st : EngineState) :
    (increment_outs st).game.second_base = st.game.second_base := by
  rw [increment_outs_eq] ; split_ifs <;> rfl

theorem increment_outs_third (st : EngineState) :
    (increment_outs st).game.third_base = st.game.third_base := by
  rw [increment_outs_eq] ; split_ifs <;> rfl

theorem increment_outs_status (st : EngineState) :
    (increment_outs st).game.status = st.game.status := by
  rw [increment_outs_eq] ; split_ifs <;> rfl

theorem increment_outs_stats (st : EngineState) :
    (increment_outs st).stats = st.stats := by
  rw [increment_outs_eq] ; split_ifs <;> rfl

theorem increment_outs_half (st : EngineState) :
    (increment_outs st).game.half =
      if st.game.outs = 0 then st.game.half else flipHalf st.game.half := by
  rw [increment_outs_eq] ; split_ifs <;> rfl

theorem increment_outs_inning (st : EngineState) :
    (increment_outs st).game.inning =
      if st.game.outs = 0 then st.game.inning
      else if st.game.half = HalfInning.bottom then st.game.inning + 1
      else st.game.inning := by
  rw [increment_outs_eq] ; split_ifs <;> rfl

theorem increment_outs_shooter (st : EngineState) :
    (increment_outs st).game.offensive_shooter_id =
      if st.game.outs = 0 then st.game.offensive_drinker_id
      else st.game.defensive_catcher_id := by
  rw [increment_outs_eq] ; split_ifs <;> rfl

theorem increment_outs_odrinker (st : EngineState) :
    (increment_outs st).game.offensive_drinker_id =
      if st.game.outs = 0 then st.game.offensive_shooter_id
      else st.game.defensive_drinker_id := by
  rw [increment_outs_eq] ; split_ifs <;> rfl

theorem increment_outs_catcher (st : EngineState) :
    (increment_outs st).game.defensive_catcher_id =
      if st.game.outs = 0 then st.game.defensive_catcher_id
      else st.game.offensive_shooter_id := by
  rw [increment_outs_eq] ; split_ifs <;> rfl

theorem increment_outs_ddrinker (st : EngineState) :
    (increment_outs st).game.defensive_drinker_id =
      if st.game.outs = 0 then st.game.defensive_drinker_id
      else st.game.offensive_drinker_id := by
  rw [increment_outs_eq] ; split_ifs <;> rfl

theorem increment_outs_events (st : EngineState) :
    (increment_outs st).events = st.events ++
      [{ event_type := EventType.rotation,
         outcome := if st.game.outs = 0 then "swap_offense" else "full_rotation",
         offense_player := none, defense_player := none, metadata := none }] := by
  rw [increment_outs_eq] ; split_ifs <;> rfl

theorem handle_strike_strikes (st : EngineState) :
    (handle_strike st).game.strikes =
      if st.game.strikes = 2 then 0 else st.game.strikes + 1 := by
  unfold handle_strike
  split_ifs with h <;> simp_all [increment_outs_strikes]

theorem handle_strike_outs (st : EngineState) :
    (handle_strike st).game.outs =
      if st.game.strikes = 2 then (if st.game.outs = 0 then 1 else 0)
      else st.game.outs := by
  unfold handle_strike
  split_ifs with h <;> simp_all [increment_outs_outs]

theorem handle_strike_of_ne (st : EngineState) (h : st.game.strikes ≠ 2) :
    handle_strike st =
      { st with game := { st.game with strikes := st.game.strikes + 1 } } := by
  unfold handle_strike
  rw [if_neg h]

theorem handle_strike_of_eq (st : EngineState) (h : st.game.strikes = 2) :
    handle_strike st = increment_outs st := by
  unfold handle_strike
  rw [if_pos h]

theorem handle_strike_shooter (st : EngineState) :
    (handle_strike st).game.offensive_shooter_id =
      if st.game.strikes = 2 then
        (if st.game.outs = 0 then st.game.offensive_drinker_id
         else st.game.defensive_catcher_id)
      else st.game.offensive_shooter_id := by
  unfold handle_strike
  split_ifs with h <;> simp_all [increment_outs_shooter]

theorem handle_strike_catcher (st : EngineState) :
    (handle_strike st).game.defensive_catcher_id =
      if st.game.strikes = 2 then
        (if st.game.outs = 0 then st.game.defensive_catcher_id
         else st.game.offensive_shooter_id)
      else st.game.defensive_catcher_id := by
  unfold handle_strike
  split_ifs with h <;> simp_all [increment_outs_catcher]

theorem handle_strike_events (st : EngineState) :
    (handle_strike st).events =
      if st.game.strikes = 2 then (increment_outs st).events else st.events := by
  unfold handle_strike
  split_ifs with h <;> rfl



/-! ### Conditional scoring preserves every non-score field -/

section CondScore

variable (c : Prop) [Decidable c] (st : EngineState) (o : Option Nat)

@[simp] theorem score_run_ite_outs :
    (if c then score_run st o else st).game.outs = st.game.outs := by
  split <;> simp

@[simp] theorem score_run_ite_strikes :
    (if c then score_run st o else st).game.strikes = st.game.strikes := by
  split <;> simp

@[simp] theorem score_run_ite_half :
    (if c then score_run st o else st).game.half = st.game.half := by
  split <;> simp

@[simp] theorem score_run_ite_inning :
    (if c then score_run st o else st).game.inning = st.game.inning := by
  split <;> simp

@[simp] theorem score_run_ite_status :
    (if c then score_run st o else st).game.status = st.game.status := by
  split <;> simp

@[simp] theorem score_run_ite_first :
    (if c then score_run st o else st).game.first_base = st.game.first_base := by
  split <;> simp

@[simp] theorem score_run_ite_second :
    (if c then score_run st o else st).game.second_base = st.game.second_base := by
  split <;> simp

@[simp] theorem score_run_ite_third :
    (if c then score_run st o else st).game.third_base = st.game.third_base := by
  split <;> simp

@[simp] theorem score_run_ite_shooter :
    (if c then score_run st o else st).game.offensive_shooter_id =
      st.game.offensive_shooter_id := by
  split <;> simp

@[simp] theorem score_run_ite_odrinker :
    (if c then score_run st o else st).game.offensive_drinker_id =
      st.game.offensive_drinker_id := by
  split <;> simp

@[simp] theorem score_run_ite_catcher :
    (if c then score_run st o else st).game.defensive_catcher_id =
      st.game.defensive_catcher_id := by
  split <;> simp

@[simp] theorem score_run_ite_ddrinker :
    (if c then score_run st o else st).game.defensive_drinker_id =
      st.game.defensive_drinker_id := by
  split <;> simp

@[simp] theorem score_run_ite_events :
    (if c then score_run st o else st).events = st.events := by
  split <;> simp

@[simp] theorem score_run_ite_away :
    (if c then score_run st o else st).game.away_score =
      if c ∧ st.game.half = HalfInning.top then st.game.away_score + 1
      else st.game.away_score := by
  by_cases hc : c <;> by_cases hh : st.game.half = HalfInning.top <;>
    simp [hc, hh]

@[simp] theorem score_run_ite_home :
    (if c then score_run st o else st).game.home_score =
      if c ∧ ¬st.game.half = HalfInning.top then st.game.home_score + 1
      else st.game.home_score := by
  by_cases hc : c <;> by_cases hh : st.game.half = HalfInning.top <;>
    simp [hc, hh]

@[simp] theorem score_run_ite_stats :
    (if c then score_run st o else st).stats =
      if c then
        bumpStats st.stats o (fun x => { x with points_for := x.points_for + 1 })
      else st.stats := by
  split <;> simp

end CondScore

/-! ### The outs counter across one operation -/

theorem apply_shot_outs (st : EngineState) (outcome : String) (o d : Option Nat) :
    (apply_shot st outcome o d).1.game.outs = st.game.outs ∨
      (apply_shot st outcome o d).1.game.outs ≤ 1 := by
  unfold apply_shot
  split_ifs with h1 h2 h3 h4 h5 h6 h7
  · left ; simp [bump]
  · left ; simp [bump]
  · left ; simp [bump]
  · left ; simp [bump]
  · left ; simp [bump]
  · simp only [assign_bases_outs, handle_strike_outs, bump_game]
    split_ifs <;> simp
  · right
    simp [increment_outs_outs_le_one]
  · left ; rfl

theorem apply_steal_outs (st : EngineState) (outcome : String) (o d : Option Nat) :
    (apply_steal st outcome o d).1.game.outs = st.game.outs ∨
      (apply_steal st outcome o d).1.game.outs ≤ 1 := by
  unfold apply_steal
  split_ifs with h1 h2 h3
  · left ; simp [bump]
  · left ; simp [bump]
  · right ; simp [increment_outs_outs_le_one]
  · left ; rfl

theorem apply_bunt_outs (st : EngineState) (outcome : String) (o d : Option Nat) :
    (apply_bunt st outcome o d).1.game.outs = st.game.outs ∨
      (apply_bunt st outcome o d).1.game.outs ≤ 1 := by
  unfold apply_bunt
  split_ifs with h1 h2 h3
  · left ; simp [bump]
  · left ; simp [bump]
  · right ; simp [increment_outs_outs_le_one]
  · left ; rfl

theorem handle_knock_cycle_outs (st : EngineState) (base : String) (o : Option Nat) :
    (handle_knock_cycle st base o).1.game.outs = st.game.outs := by
  unfold handle_knock_cycle
  split_ifs <;> simp

theorem knock_loop_outs (bumpf : Stats → Stats) (base : String)
    (o d : Option Nat) (n : Nat) (st : EngineState) :
    (knock_loop bumpf base o d n st).1.game.outs = st.game.outs := by
  induction n generalizing st with
  | zero => rfl
  | succ k ih =>
      unfold knock_loop
      dsimp only
      rcases hc : handle_knock_cycle
          { st with stats := bumpStats st.stats d bumpf } base o with ⟨st1, e⟩
      have hh := handle_knock_cycle_outs
          { st with stats := bumpStats st.stats d bumpf } base o
      rw [hc] at hh
      cases e with
      | none => simpa [ih st1] using hh
      | some err => simpa using hh

theorem apply_knock_outs (st : EngineState) (f s t : Int) (o d : Option Nat) :
    (apply_knock st f s t o d).1.game.outs = st.game.outs := by
  unfold apply_knock
  rcases h1 : knock_loop (fun x => { x with knocks_first := x.knocks_first + 1 })
      "first" o d f.toNat st with ⟨st1, e1⟩
  have k1 := knock_loop_outs (fun x => { x with knocks_first := x.knocks_first + 1 })
      "first" o d f.toNat st
  rw [h1] at k1
  cases e1 with
  | some err => simpa using k1
  | none =>
    rcases h2 : knock_loop (fun x => { x with knocks_second := x.knocks_second + 1 })
        "second" o d s.toNat st1 with ⟨st2, e2⟩
    have k2 := knock_loop_outs (fun x => { x with knocks_second := x.knocks_second + 1 })
        "second" o d s.toNat st1
    rw [h2] at k2
    cases e2 with
    | some err => simp_all
    | none =>
      have k3 := knock_loop_outs (fun x => { x with knocks_third := x.knocks_third + 1 })
          "third" o d t.toNat st2
      simp_all


theorem record_shot_outs (st : EngineState) (outcome : String) (a b : Option Nat) :
    (record_shot st outcome a b).1.game.outs = st.game.outs ∨
      (record_shot st outcome a b).1.game.outs ≤ 1 := by
  unfold record_shot
  dsimp only
  rcases orDefault a (mark_in_progress st).game.offensive_shooter_id with _ | sp <;>
    rcases orDefault b (mark_in_progress st).game.defensive_catcher_id with _ | cp
  · left ; simp
  · left ; simp
  · left ; simp
  · dsimp only
    rcases happ : apply_shot (mark_in_progress st) outcome (some sp) (some cp)
      with ⟨st1, e⟩
    have hout := apply_shot_outs (mark_in_progress st) outcome (some sp) (some cp)
    rw [happ] at hout
    simp only [mark_in_progress_eq] at hout
    cases e with
    | none => simpa using hout
    | some err => simpa using hout

theorem record_steal_outs (st : EngineState) (outcome : String) (a b : Option Nat) :
    (record_steal st outcome a b).1.game.outs = st.game.outs ∨
      (record_steal st outcome a b).1.game.outs ≤ 1 := by
  unfold record_steal
  dsimp only
  rcases orDefault a (mark_in_progress st).game.offensive_drinker_id with _ | op <;>
    rcases orDefault b (mark_in_progress st).game.defensive_drinker_id with _ | dp
  · left ; simp
  · left ; simp
  · left ; simp
  · dsimp only
    rcases happ : apply_steal (mark_in_progress st) outcome (some op) (some dp)
      with ⟨st1, e⟩
    have hout := apply_steal_outs (mark_in_progress st) outcome (some op) (some dp)
    rw [happ] at hout
    simp only [mark_in_progress_eq] at hout
    cases e with
    | none => simpa using hout
    | some err => simpa using hout

theorem record_bunt_outs (st : EngineState) (outcome : String) (a b : Option Nat) :
    (record_bunt st outcome a b).1.game.outs = st.game.outs ∨
      (record_bunt st outcome a b).1.game.outs ≤ 1 := by
  unfold record_bunt
  dsimp only
  rcases orDefault a (mark_in_progress st).game.offensive_drinker_id with _ | op <;>
    rcases orDefault b (mark_in_progress st).game.defensive_drinker_id with _ | dp
  · left ; simp
  · left ; simp
  · left ; simp
  · dsimp only
    rcases happ : apply_bunt (mark_in_progress st) outcome (some op) (some dp)
      with ⟨st1, e⟩
    have hout := apply_bunt_outs (mark_in_progress st) outcome (some op) (some dp)
    rw [happ] at hout
    simp only [mark_in_progress_eq] at hout
    cases e with
    | none => simpa using hout
    | some err => simpa using hout

theorem record_knock_outs (st : EngineState) (f s t : Int) :
    (record_knock st f s t).1.game.outs = st.game.outs := by
  unfold record_knock
  dsimp only
  rcases (mark_in_progress st).game.offensive_shooter_id with _ | sp <;>
    rcases (mark_in_progress st).game.defensive_catcher_id with _ | cp
  · simp
  · simp
  · simp
  · dsimp only
    rcases happ : apply_knock (mark_in_progress st) f s t (some sp) (some cp)
      with ⟨st1, e⟩
    have hout := apply_knock_outs (mark_in_progress st) f s t (some sp) (some cp)
    rw [happ] at hout
    simp only [mark_in_progress_eq] at hout
    cases e with
    | none => simpa using hout
    | some err => simpa using hout

/-- One engine operation either leaves the stored outs value alone or
leaves it at 0 or 1 (the out sub-rule can never store more than 1). -/
theorem runOp_outs (st : EngineState) (op : Op) :
    (runOp st op).1.game.outs = st.game.outs ∨
      (runOp st op).1.game.outs ≤ 1 := by
  cases op with
  | shot outcome a b => exact record_shot_outs st outcome a b
  | steal outcome a b => exact record_steal_outs st outcome a b
  | bunt outcome a b => exact record_bunt_outs st outcome a b
  | knock f s t => exact Or.inl (record_knock_outs st f s t)


/-! ### Claim theorems: invariants on the outs counter (C3, C9) -/

/-- C3: for every sequence of engine operations applied to a game whose
stored outs value starts in [0,2], the stored outs value observed between
operations never exceeds 2 — reaching the third out never persists as the
value 3, because the out sub-rule rotates and resets within the same
operation. -/
theorem outs_never_exceeds_two (st : EngineState) (ops : List Op)
    (h : st.game.outs ≤ 2) : (runOps st ops).game.outs ≤ 2 := by
  induction ops generalizing st with
  | nil => exact h
  | cons op rest ih =>
      unfold runOps
      rcases runOp_outs st op with he | hle
      · exact ih _ (he ▸ h)
      · exact ih _ (by omega)

theorem outs_never_exceeds_two_witness :
    stA.game.outs ≤ 2 ∧
      (runOps stA [Op.shot "out" none none, Op.steal "fail" none none,
        Op.bunt "fail" none none, Op.knock 2 1 1]).game.outs ≤ 2 :=
  ⟨by decide,
   outs_never_exceeds_two stA [Op.shot "out" none none, Op.steal "fail" none none,
     Op.bunt "fail" none none, Op.knock 2 1 1] (by decide)⟩

/-- C9: after every engine operation that starts from a stored outs value in
\{0, 1\}, the stored outs value is again in \{0, 1\}: the value 2 never
persists between operations, because the branch taken when outs reaches 2
resets outs to 0 within the same operation that records the second out. -/
theorem outs_stays_in_zero_one (st : EngineState) (op : Op)
    (h : st.game.outs = 0 ∨ st.game.outs = 1) :
    (runOp st op).1.game.outs = 0 ∨ (runOp st op).1.game.outs = 1 := by
  rcases runOp_outs st op with he | hle
  · rw [he] ; exact h
  · omega

theorem outs_stays_in_zero_one_witness :
    (stA.game.outs = 0 ∨ stA.game.outs = 1) ∧
      ((runOp stA (Op.shot "out" none none)).1.game.outs = 0 ∨
       (runOp stA (Op.shot "out" none none)).1.game.outs = 1) :=
  ⟨by decide, outs_stays_in_zero_one stA (Op.shot "out" none none) (by decide)⟩


/-! ### Claim theorem: the second out performs the full rotation (C2) -/

/-- C2: invoking the out sub-rule while outs equals 1 swaps the
defensive and offensive drinkers, swaps the offensive shooter with the
defensive catcher, resets outs and strikes to 0, flips the half, increments
the inning exactly when the new half is `top`, and appends a
`rotation`/`full_rotation` log record; consequently two out-sub-rule
invocations in a row starting from outs = 0 flip the half exactly once. -/
theorem second_out_full_rotation (st : EngineState) :
    (st.game.outs = 1 →
      (increment_outs st).game.outs = 0 ∧
      (increment_outs st).game.strikes = 0 ∧
      (increment_outs st).game.defensive_drinker_id =
        st.game.offensive_drinker_id ∧
      (increment_outs st).game.offensive_drinker_id =
        st.game.defensive_drinker_id ∧
      (increment_outs st).game.offensive_shooter_id =
        st.game.defensive_catcher_id ∧
      (increment_outs st).game.defensive_catcher_id =
        st.game.offensive_shooter_id ∧
      (increment_outs st).game.half = flipHalf st.game.half ∧
      (increment_outs st).game.inning =
        (if (increment_outs st).game.half = HalfInning.top then
          st.game.inning + 1 else st.game.inning) ∧
      (increment_outs st).events = st.events ++
        [{ event_type := EventType.rotation, outcome := "full_rotation",
           offense_player := none, defense_player := none,
           metadata := none }]) ∧
    (st.game.outs = 0 →
      (increment_outs (increment_outs st)).game.half = flipHalf st.game.half) := by
  constructor
  · intro h
    have h0 : ¬ st.game.outs = 0 := by omega
    refine ⟨?_, ?_, ?_, ?_, ?_, ?_, ?_, ?_, ?_⟩
    · rw [increment_outs_outs] ; simp [h0]
    · exact increment_outs_strikes st
    · rw [increment_outs_ddrinker] ; simp [h0]
    · rw [increment_outs_odrinker] ; simp [h0]
    · rw [increment_outs_shooter] ; simp [h0]
    · rw [increment_outs_catcher] ; simp [h0]
    · rw [increment_outs_half] ; simp [h0]
    · rw [increment_outs_inning, increment_outs_half] ; simp only [h0, if_false]
      cases st.game.half <;> simp [flipHalf]
    · rw [increment_outs_events] ; simp [h0]
  · intro h
    have h1 : (increment_outs st).game.outs = 1 := by
      rw [increment_outs_outs] ; simp [h]
    rw [increment_outs_half (increment_outs st), increment_outs_half st]
    simp [h, h1]

theorem second_out_full_rotation_witness :
    stB.game.outs = 1 ∧
      (increment_outs stB).game.outs = 0 ∧
      (increment_outs stB).game.half = flipHalf stB.game.half ∧
      stA.game.outs = 0 ∧
      (increment_outs (increment_outs stA)).game.half = flipHalf stA.game.half := by
  have h1 := (second_out_full_rotation stB).1 (by decide)
  have h2 := (second_out_full_rotation stA).2 (by decide)
  exact ⟨by decide, h1.1, h1.2.2.2.2.2.2.1, by decide, h2⟩


/-! ### Claim theorems: missing participants (C1) -/

/-- C1 (counterexample): on a scheduled game whose offensive shooter slot is
empty, `record_shot` does fail with the missing-participant error, yet the
game's status field has changed from `scheduled` to `in_progress` by the
time of the failure, because `_mark_in_progress` runs before
`_validate_players`. -/
theorem missing_participant_mutates_status :
    (record_shot stMissing "first" none none).2 = some Err.missingParticipant ∧
    stMissing.game.status = GameStatus.scheduled ∧
    (record_shot stMissing "first" none none).1.game.status =
      GameStatus.in_progress := by
  refine ⟨rfl, rfl, rfl⟩

/-- C1 (amended): if a required role participant is absent (role slot empty,
no override), each event-recording operation fails with the
missing-participant error and performs no state change other than
`_mark_in_progress`'s status transition (scheduled to in_progress), which
runs before validation: the returned state is exactly `mark_in_progress` of
the input, which differs from it at most in the status field. -/
theorem missing_participant_fails_after_status_mark (st : EngineState)
    (outcome : String) (o d : Option Nat) (f s t : Int) :
    ((orDefault o st.game.offensive_shooter_id = none ∨
      orDefault d st.game.defensive_catcher_id = none) →
      record_shot st outcome o d =
        (mark_in_progress st, some Err.missingParticipant)) ∧
    ((orDefault o st.game.offensive_drinker_id = none ∨
      orDefault d st.game.defensive_drinker_id = none) →
      record_steal st outcome o d =
        (mark_in_progress st, some Err.missingParticipant)) ∧
    ((orDefault o st.game.offensive_drinker_id = none ∨
      orDefault d st.game.defensive_drinker_id = none) →
      record_bunt st outcome o d =
        (mark_in_progress st, some Err.missingParticipant)) ∧
    ((st.game.offensive_shooter_id = none ∨
      st.game.defensive_catcher_id = none) →
      record_knock st f s t =
        (mark_in_progress st, some Err.missingParticipant)) ∧
    mark_in_progress st =
      { st with game := { st.game with status :=
          if st.game.status = GameStatus.scheduled then GameStatus.in_progress
          else st.game.status } } := by
  refine ⟨?_, ?_, ?_, ?_, mark_in_progress_eq st⟩
  · intro h
    unfold record_shot
    dsimp only
    rcases h with h | h
    · have h' : orDefault o (mark_in_progress st).game.offensive_shooter_id =
          none := by simp [h]
      rw [h']
    · have h' : orDefault d (mark_in_progress st).game.defensive_catcher_id =
          none := by simp [h]
      rw [h']
      rcases orDefault o (mark_in_progress st).game.offensive_shooter_id
        with _ | sp <;> rfl
  · intro h
    unfold record_steal
    dsimp only
    rcases h with h | h
    · have h' : orDefault o (mark_in_progress st).game.offensive_drinker_id =
          none := by simp [h]
      rw [h']
    · have h' : orDefault d (mark_in_progress st).game.defensive_drinker_id =
          none := by simp [h]
      rw [h']
      rcases orDefault o (mark_in_progress st).game.offensive_drinker_id
        with _ | op <;> rfl
  · intro h
    unfold record_bunt
    dsimp only
    rcases h with h | h
    · have h' : orDefault o (mark_in_progress st).game.offensive_drinker_id =
          none := by simp [h]
      rw [h']
    · have h' : orDefault d (mark_in_progress st).game.defensive_drinker_id =
          none := by simp [h]
      rw [h']
      rcases orDefault o (mark_in_progress st).game.offensive_drinker_id
        with _ | op <;> rfl
  · intro h
    unfold record_knock
    dsimp only
    rcases h with h | h
    · have h' : (mark_in_progress st).game.offensive_shooter_id = none := by
        simp [h]
      rw [h']
    · have h' : (mark_in_progress st).game.defensive_catcher_id = none := by
        simp [h]
      rw [h']
      rcases (mark_in_progress st).game.offensive_shooter_id with _ | sp <;> rfl

theorem missing_participant_fails_after_status_mark_witness :
    orDefault none stMissing.game.offensive_shooter_id = none ∧
      record_shot stMissing "first" none none =
        (mark_in_progress stMissing, some Err.missingParticipant) :=
  ⟨rfl, (missing_participant_fails_after_status_mark stMissing "first"
    none none 0 0 0).1 (Or.inl rfl)⟩


/-! ### Counting rotation records -/

@[simp] theorem countRotations_append (l l' : List GameEvent) :
    countRotations (l ++ l') = countRotations l + countRotations l' := by
  simp [countRotations, List.countP_append]

@[simp] theorem countRotations_nil : countRotations [] = 0 := rfl

@[simp] theorem countRotations_cons (e : GameEvent) (l : List GameEvent) :
    countRotations (e :: l) =
      countRotations l + (if e.event_type = EventType.rotation then 1 else 0) := by
  by_cases h : e.event_type = EventType.rotation <;>
    simp [countRotations, List.countP_cons, h]

/-! ### Claim theorem: grandslam scoring (C5) -/

/-- C5: for every prior base state, recording a shot with outcome
`grandslam` adds exactly 4 runs to the batting team's score (away when the
half is top, home otherwise), clears all three bases, increments the
shooter's shots_grandslam by 1 and resets strikes to 0. -/
theorem grandslam_scores_four (st : EngineState) (sp cp : Nat)
    (hs : st.game.offensive_shooter_id = some sp)
    (hc : st.game.defensive_catcher_id = some cp) :
    (record_shot st "grandslam" none none).2 = none ∧
    (st.game.half = HalfInning.top →
      (record_shot st "grandslam" none none).1.game.away_score =
        st.game.away_score + 4 ∧
      (record_shot st "grandslam" none none).1.game.home_score =
        st.game.home_score) ∧
    (st.game.half = HalfInning.bottom →
      (record_shot st "grandslam" none none).1.game.home_score =
        st.game.home_score + 4 ∧
      (record_shot st "grandslam" none none).1.game.away_score =
        st.game.away_score) ∧
    (record_shot st "grandslam" none none).1.game.first_base = false ∧
    (record_shot st "grandslam" none none).1.game.second_base = false ∧
    (record_shot st "grandslam" none none).1.game.third_base = false ∧
    ((record_shot st "grandslam" none none).1.stats sp).shots_grandslam =
      (st.stats sp).shots_grandslam + 1 ∧
    (record_shot st "grandslam" none none).1.game.strikes = 0 := by
  refine ⟨?_, ?_, ?_, ?_, ?_, ?_, ?_, ?_⟩ <;>
    simp [record_shot, hs, hc, apply_shot, bump] <;>
    intro h <;> simp [h]

theorem grandslam_scores_four_witness :
    stA.game.offensive_shooter_id = some 1 ∧
    stA.game.defensive_catcher_id = some 3 ∧
    (record_shot stA "grandslam" none none).2 = none :=
  ⟨rfl, rfl, (grandslam_scores_four stA 1 3 rfl rfl).1⟩

/-! ### Claim theorem: failed steals and bunts (C6) -/

set_option linter.unnecessarySeqFocus false in
/-- C6: for every prior base state, a steal with outcome `fail` or a bunt
with outcome `fail` increments the defender's catches_made by 1, invokes the
out sub-rule exactly once (one rotation log record is appended), scores no
runs, and leaves all three base flags false. -/
theorem fail_is_out_and_clears_bases (st : EngineState) (op dp : Nat)
    (ho : st.game.offensive_drinker_id = some op)
    (hd : st.game.defensive_drinker_id = some dp) :
    ((record_steal st "fail" none none).2 = none ∧
     ((record_steal st "fail" none none).1.stats dp).catches_made =
       (st.stats dp).catches_made + 1 ∧
     countRotations (record_steal st "fail" none none).1.events =
       countRotations st.events + 1 ∧
     (record_steal st "fail" none none).1.game.home_score =
       st.game.home_score ∧
     (record_steal st "fail" none none).1.game.away_score =
       st.game.away_score ∧
     (record_steal st "fail" none none).1.game.first_base = false ∧
     (record_steal st "fail" none none).1.game.second_base = false ∧
     (record_steal st "fail" none none).1.game.third_base = false) ∧
    ((record_bunt st "fail" none none).2 = none ∧
     ((record_bunt st "fail" none none).1.stats dp).catches_made =
       (st.stats dp).catches_made + 1 ∧
     countRotations (record_bunt st "fail" none none).1.events =
       countRotations st.events + 1 ∧
     (record_bunt st "fail" none none).1.game.home_score =
       st.game.home_score ∧
     (record_bunt st "fail" none none).1.game.away_score =
       st.game.away_score ∧
     (record_bunt st "fail" none none).1.game.first_base = false ∧
     (record_bunt st "fail" none none).1.game.second_base = false ∧
     (record_bunt st "fail" none none).1.game.third_base = false) := by
  constructor
  · refine ⟨?_, ?_, ?_, ?_, ?_, ?_, ?_, ?_⟩ <;>
      simp [record_steal, ho, hd, apply_steal, bump, increment_outs_stats,
        increment_outs_events, increment_outs_home_score,
        increment_outs_away_score] <;>
      (try (rw [bumpStats_some_apply] ; split_ifs with hqp <;> simp [hqp]))
  · refine ⟨?_, ?_, ?_, ?_, ?_, ?_, ?_, ?_⟩ <;>
      simp [record_bunt, ho, hd, apply_bunt, bump, increment_outs_stats,
        increment_outs_events, increment_outs_home_score,
        increment_outs_away_score] <;>
      (try (rw [bumpStats_some_apply] ; split_ifs with hqp <;> simp [hqp]))

theorem fail_is_out_and_clears_bases_witness :
    stA.game.offensive_drinker_id = some 2 ∧
    stA.game.defensive_drinker_id = some 4 ∧
    ((record_steal stA "fail" none none).1.stats 4).catches_made =
      (stA.stats 4).catches_made + 1 :=
  ⟨rfl, rfl, (fail_is_out_and_clears_bases stA 2 4 rfl rfl).1.2.1⟩

/-! ### Claim theorem: unknown outcome codes are rejected (C7) -/

theorem apply_shot_err (st : EngineState) (outcome : String)
    (o d : Option Nat) :
    (apply_shot st outcome o d).2 = some (Err.unknownShotOutcome outcome) ↔
      ¬(outcome = "first" ∨ outcome = "second" ∨ outcome = "third" ∨
        outcome = "home" ∨ outcome = "grandslam" ∨ outcome = "strike" ∨
        outcome = "out") := by
  unfold apply_shot
  split_ifs with h1 h2 h3 h4 h5 h6 h7 <;> simp_all

theorem apply_steal_err (st : EngineState) (outcome : String)
    (o d : Option Nat) :
    (apply_steal st outcome o d).2 = some (Err.unknownStealOutcome outcome) ↔
      ¬(outcome = "success" ∨ outcome = "bonus" ∨ outcome = "fail") := by
  unfold apply_steal
  split_ifs with h1 h2 h3 <;> simp_all

theorem apply_bunt_err (st : EngineState) (outcome : String)
    (o d : Option Nat) :
    (apply_bunt st outcome o d).2 = some (Err.unknownBuntOutcome outcome) ↔
      ¬(outcome = "success" ∨ outcome = "bonus" ∨ outcome = "fail") := by
  unfold apply_bunt
  split_ifs with h1 h2 h3 <;> simp_all

/-- C7: with both required participants resolvable, `record_shot` fails with
the unknown-outcome error exactly when the outcome string is not one of
first/second/third/home/grandslam/strike/out, and `record_steal` /
`record_bunt` fail with their unknown-outcome errors exactly when the
outcome is not one of success/bonus/fail: an unrecognized outcome is never
silently ignored. -/
theorem unknown_outcome_rejected (st : EngineState) (outcome : String)
    (o d : Option Nat) :
    ((orDefault o st.game.offensive_shooter_id).isSome →
     (orDefault d st.game.defensive_catcher_id).isSome →
      ((record_shot st outcome o d).2 =
          some (Err.unknownShotOutcome outcome) ↔
        ¬(outcome = "first" ∨ outcome = "second" ∨ outcome = "third" ∨
          outcome = "home" ∨ outcome = "grandslam" ∨ outcome = "strike" ∨
          outcome = "out"))) ∧
    ((orDefault o st.game.offensive_drinker_id).isSome →
     (orDefault d st.game.defensive_drinker_id).isSome →
      ((record_steal st outcome o d).2 =
          some (Err.unknownStealOutcome outcome) ↔
        ¬(outcome = "success" ∨ outcome = "bonus" ∨ outcome = "fail"))) ∧
    ((orDefault o st.game.offensive_drinker_id).isSome →
     (orDefault d st.game.defensive_drinker_id).isSome →
      ((record_bunt st outcome o d).2 =
          some (Err.unknownBuntOutcome outcome) ↔
        ¬(outcome = "success" ∨ outcome = "bonus" ∨ outcome = "fail"))) := by
  refine ⟨?_, ?_, ?_⟩
  · intro h1 h2
    obtain ⟨sp, hsp⟩ := Option.isSome_iff_exists.mp h1
    obtain ⟨cp, hcp⟩ := Option.isSome_iff_exists.mp h2
    unfold record_shot
    dsimp only
    rw [show orDefault o (mark_in_progress st).game.offensive_shooter_id =
        some sp from by simpa using hsp,
      show orDefault d (mark_in_progress st).game.defensive_catcher_id =
        some cp from by simpa using hcp]
    dsimp only
    have herr := apply_shot_err (mark_in_progress st) outcome (some sp) (some cp)
    rcases happ : apply_shot (mark_in_progress st) outcome (some sp) (some cp)
      with ⟨st1, e⟩
    rw [happ] at herr
    cases e <;> simpa using herr
  · intro h1 h2
    obtain ⟨op, hop⟩ := Option.isSome_iff_exists.mp h1
    obtain ⟨dp, hdp⟩ := Option.isSome_iff_exists.mp h2
    unfold record_steal
    dsimp only
    rw [show orDefault o (mark_in_progress st).game.offensive_drinker_id =
        some op from by simpa using hop,
      show orDefault d (mark_in_progress st).game.defensive_drinker_id =
        some dp from by simpa using hdp]
    dsimp only
    have herr := apply_steal_err (mark_in_progress st) outcome (some op) (some dp)
    rcases happ : apply_steal (mark_in_progress st) outcome (some op) (some dp)
      with ⟨st1, e⟩
    rw [happ] at herr
    cases e <;> simpa using herr
  · intro h1 h2
    obtain ⟨op, hop⟩ := Option.isSome_iff_exists.mp h1
    obtain ⟨dp, hdp⟩ := Option.isSome_iff_exists.mp h2
    unfold record_bunt
    dsimp only
    rw [show orDefault o (mark_in_progress st).game.offensive_drinker_id =
        some op from by simpa using hop,
      show orDefault d (mark_in_progress st).game.defensive_drinker_id =
        some dp from by simpa using hdp]
    dsimp only
    have herr := apply_bunt_err (mark_in_progress st) outcome (some op) (some dp)
    rcases happ : apply_bunt (mark_in_progress st) outcome (some op) (some dp)
      with ⟨st1, e⟩
    rw [happ] at herr
    cases e <;> simpa using herr

theorem unknown_outcome_rejected_witness :
    (orDefault none stA.game.offensive_shooter_id).isSome = true ∧
    (orDefault none stA.game.defensive_catcher_id).isSome = true ∧
    (record_shot stA "flurble" none none).2 =
      some (Err.unknownShotOutcome "flurble") :=
  ⟨rfl, rfl,
    ((unknown_outcome_rejected stA "flurble" none none).1 (by decide)
      (by decide)).mpr (by decide)⟩


/-! ### Claim theorem: three strikes make one out (C4) -/

/-- Master equation: with both roles resolvable, a `strike` shot is the
three stat bumps followed by the strike sub-rule and the shot log record
(the base assign-back writes the unchanged flags back and is the
identity). -/
theorem record_shot_strike_eq (st : EngineState) (sp cp : Nat)
    (hs : st.game.offensive_shooter_id = some sp)
    (hc : st.game.defensive_catcher_id = some cp) :
    record_shot st "strike" none none =
      (log_event
        (handle_strike
          (bump (bump (bump (mark_in_progress st)
            (some sp) (fun x => { x with shots_taken := x.shots_taken + 1 }))
            (some sp) (fun x => { x with shots_strike := x.shots_strike + 1 }))
            (some cp) (fun x => { x with catches_missed := x.catches_missed + 1 })))
        EventType.shot "strike" (some sp) (some cp) none, none) := by
  unfold record_shot
  dsimp only
  rw [show orDefault none (mark_in_progress st).game.offensive_shooter_id =
      some sp from by simpa using hs,
    show orDefault none (mark_in_progress st).game.defensive_catcher_id =
      some cp from by simpa using hc]
  rfl

theorem record_shot_strike_snd (st : EngineState) (sp cp : Nat)
    (hs : st.game.offensive_shooter_id = some sp)
    (hc : st.game.defensive_catcher_id = some cp) :
    (record_shot st "strike" none none).2 = none := by
  rw [record_shot_strike_eq st sp cp hs hc]

theorem record_shot_strike_strikes (st : EngineState) (sp cp : Nat)
    (hs : st.game.offensive_shooter_id = some sp)
    (hc : st.game.defensive_catcher_id = some cp) :
    (record_shot st "strike" none none).1.game.strikes =
      if st.game.strikes = 2 then 0 else st.game.strikes + 1 := by
  rw [record_shot_strike_eq st sp cp hs hc]
  simp [handle_strike_strikes]

theorem record_shot_strike_outs (st : EngineState) (sp cp : Nat)
    (hs : st.game.offensive_shooter_id = some sp)
    (hc : st.game.defensive_catcher_id = some cp) :
    (record_shot st "strike" none none).1.game.outs =
      if st.game.strikes = 2 then (if st.game.outs = 0 then 1 else 0)
      else st.game.outs := by
  rw [record_shot_strike_eq st sp cp hs hc]
  simp [handle_strike_outs]

theorem record_shot_strike_shooter (st : EngineState) (sp cp : Nat)
    (hs : st.game.offensive_shooter_id = some sp)
    (hc : st.game.defensive_catcher_id = some cp) :
    (record_shot st "strike" none none).1.game.offensive_shooter_id =
      if st.game.strikes = 2 then
        (if st.game.outs = 0 then st.game.offensive_drinker_id
         else st.game.defensive_catcher_id)
      else st.game.offensive_shooter_id := by
  rw [record_shot_strike_eq st sp cp hs hc]
  simp [handle_strike_shooter]

theorem record_shot_strike_catcher (st : EngineState) (sp cp : Nat)
    (hs : st.game.offensive_shooter_id = some sp)
    (hc : st.game.defensive_catcher_id = some cp) :
    (record_shot st "strike" none none).1.game.defensive_catcher_id =
      if st.game.strikes = 2 then
        (if st.game.outs = 0 then st.game.defensive_catcher_id
         else st.game.offensive_shooter_id)
      else st.game.defensive_catcher_id := by
  rw [record_shot_strike_eq st sp cp hs hc]
  simp [handle_strike_catcher]

theorem record_shot_strike_rotations (st : EngineState) (sp cp : Nat)
    (hs : st.game.offensive_shooter_id = some sp)
    (hc : st.game.defensive_catcher_id = some cp) :
    countRotations (record_shot st "strike" none none).1.events =
      countRotations st.events + (if st.game.strikes = 2 then 1 else 0) := by
  rw [record_shot_strike_eq st sp cp hs hc]
  simp [handle_strike_events, increment_outs_events]
  split_ifs <;> simp

/-- C4: starting from strikes = 0 with the shooter and catcher role slots
occupied, three consecutive `strike` shots succeed, leave strikes at 1, 2
and finally 0, invoke the out sub-rule exactly once (exactly one rotation
log record is appended over the three calls), and record that out (outs
becomes 1 from 0, or resets to 0 on a rotation). -/
theorem three_strikes_one_out (st : EngineState) (sp cp : Nat)
    (hs : st.game.offensive_shooter_id = some sp)
    (hc : st.game.defensive_catcher_id = some cp)
    (h0 : st.game.strikes = 0) :
    (record_shot st "strike" none none).2 = none ∧
    (record_shot st "strike" none none).1.game.strikes = 1 ∧
    (record_shot (record_shot st "strike" none none).1
        "strike" none none).2 = none ∧
    (record_shot (record_shot st "strike" none none).1
        "strike" none none).1.game.strikes = 2 ∧
    (record_shot (record_shot (record_shot st "strike" none none).1
        "strike" none none).1 "strike" none none).2 = none ∧
    (record_shot (record_shot (record_shot st "strike" none none).1
        "strike" none none).1 "strike" none none).1.game.strikes = 0 ∧
    countRotations (record_shot (record_shot (record_shot st
        "strike" none none).1 "strike" none none).1
        "strike" none none).1.events = countRotations st.events + 1 ∧
    (record_shot (record_shot (record_shot st "strike" none none).1
        "strike" none none).1 "strike" none none).1.game.outs =
      (if st.game.outs = 0 then 1 else 0) := by
  have hs1 : (record_shot st "strike" none none).1.game.offensive_shooter_id =
      some sp := by
    rw [record_shot_strike_shooter st sp cp hs hc] ; simp [h0, hs]
  have hc1 : (record_shot st "strike" none none).1.game.defensive_catcher_id =
      some cp := by
    rw [record_shot_strike_catcher st sp cp hs hc] ; simp [h0, hc]
  have hk1 : (record_shot st "strike" none none).1.game.strikes = 1 := by
    rw [record_shot_strike_strikes st sp cp hs hc] ; simp [h0]
  have ho1 : (record_shot st "strike" none none).1.game.outs = st.game.outs := by
    rw [record_shot_strike_outs st sp cp hs hc] ; simp [h0]
  have hr1 : countRotations (record_shot st "strike" none none).1.events =
      countRotations st.events := by
    rw [record_shot_strike_rotations st sp cp hs hc] ; simp [h0]
  have hs2 : (record_shot (record_shot st "strike" none none).1
      "strike" none none).1.game.offensive_shooter_id = some sp := by
    rw [record_shot_strike_shooter _ sp cp hs1 hc1] ; simp [hk1, hs1]
  have hc2 : (record_shot (record_shot st "strike" none none).1
      "strike" none none).1.game.defensive_catcher_id = some cp := by
    rw [record_shot_strike_catcher _ sp cp hs1 hc1] ; simp [hk1, hc1]
  have hk2 : (record_shot (record_shot st "strike" none none).1
      "strike" none none).1.game.strikes = 2 := by
    rw [record_shot_strike_strikes _ sp cp hs1 hc1] ; simp [hk1]
  have ho2 : (record_shot (record_shot st "strike" none none).1
      "strike" none none).1.game.outs = st.game.outs := by
    rw [record_shot_strike_outs _ sp cp hs1 hc1] ; simp [hk1, ho1]
  have hr2 : countRotations (record_shot (record_shot st "strike" none none).1
      "strike" none none).1.events = countRotations st.events := by
    rw [record_shot_strike_rotations _ sp cp hs1 hc1] ; simp [hk1, hr1]
  refine ⟨record_shot_strike_snd st sp cp hs hc, hk1,
    record_shot_strike_snd _ sp cp hs1 hc1, hk2,
    record_shot_strike_snd _ sp cp hs2 hc2, ?_, ?_, ?_⟩
  · rw [record_shot_strike_strikes _ sp cp hs2 hc2] ; simp [hk2]
  · rw [record_shot_strike_rotations _ sp cp hs2 hc2] ; simp [hk2, hr2]
  · rw [record_shot_strike_outs _ sp cp hs2 hc2] ; simp [hk2, ho2]

theorem three_strikes_one_out_witness :
    stA.game.offensive_shooter_id = some 1 ∧
    stA.game.defensive_catcher_id = some 3 ∧
    stA.game.strikes = 0 ∧
    (record_shot (record_shot (record_shot stA "strike" none none).1
        "strike" none none).1 "strike" none none).1.game.strikes = 0 :=
  ⟨rfl, rfl, rfl,
    (three_strikes_one_out stA 1 3 rfl rfl rfl).2.2.2.2.2.1⟩


/-! ### Claim theorem: zero and negative knock counts (C10) -/

/-- C10: a zero or negative knock count contributes zero unit applications
and raises no error (Python's `range(n)` is empty for `n ≤ 0`); in
particular `record_knock(0, 0, 0)` with both role participants assigned
changes no base flags, scores, outs, strikes or stat counters — the game
row is touched only by the scheduled-to-in_progress status transition — yet
still appends a knock log record carrying the counts as metadata. -/
theorem knock_zero_counts (st : EngineState) (sp cp : Nat)
    (hs : st.game.offensive_shooter_id = some sp)
    (hc : st.game.defensive_catcher_id = some cp)
    (f s t : Int) :
    (f ≤ 0 → ∀ (st2 : EngineState) (o d : Option Nat),
      apply_knock st2 f s t o d = apply_knock st2 0 s t o d) ∧
    (s ≤ 0 → ∀ (st2 : EngineState) (o d : Option Nat),
      apply_knock st2 f s t o d = apply_knock st2 f 0 t o d) ∧
    (t ≤ 0 → ∀ (st2 : EngineState) (o d : Option Nat),
      apply_knock st2 f s t o d = apply_knock st2 f s 0 o d) ∧
    (record_knock st 0 0 0).2 = none ∧
    (record_knock st 0 0 0).1.game =
      { st.game with status :=
          if st.game.status = GameStatus.scheduled then GameStatus.in_progress
          else st.game.status } ∧
    (record_knock st 0 0 0).1.stats = st.stats ∧
    (record_knock st 0 0 0).1.events = st.events ++
      [{ event_type := EventType.knock, outcome := "update",
         offense_player := some sp, defense_player := some cp,
         metadata := some (0, 0, 0) }] := by
  refine ⟨?_, ?_, ?_, ?_, ?_, ?_, ?_⟩
  · intro h st2 o d
    simp [apply_knock, Int.toNat_of_nonpos h]
  · intro h st2 o d
    simp [apply_knock, Int.toNat_of_nonpos h]
  · intro h st2 o d
    simp [apply_knock, Int.toNat_of_nonpos h]
  · simp [record_knock, hs, hc, apply_knock, knock_loop]
  · simp [record_knock, hs, hc, apply_knock, knock_loop, mark_in_progress_eq]
  · simp [record_knock, hs, hc, apply_knock, knock_loop, mark_in_progress_eq]
  · simp [record_knock, hs, hc, apply_knock, knock_loop, mark_in_progress_eq]

theorem knock_zero_counts_witness :
    stA.game.offensive_shooter_id = some 1 ∧
    stA.game.defensive_catcher_id = some 3 ∧
    (record_knock stA 0 0 0).2 = none ∧
    apply_knock stA (-2) 0 0 none none = apply_knock stA 0 0 0 none none := by
  have h := knock_zero_counts stA 1 3 rfl rfl (-2) 0 0
  exact ⟨rfl, rfl, (knock_zero_counts stA 1 3 rfl rfl 0 0 0).2.2.2.1,
    h.1 (by decide) stA none none⟩


/-! ### Knock loops as pure iteration (towards C8) -/

theorem handle_knock_cycle_first_pair (st : EngineState) (o : Option Nat) :
    handle_knock_cycle st "first" o =
      ((handle_knock_cycle st "first" o).1, none) := by
  unfold handle_knock_cycle ; simp

theorem handle_knock_cycle_second_pair (st : EngineState) (o : Option Nat) :
    handle_knock_cycle st "second" o =
      ((handle_knock_cycle st "second" o).1, none) := by
  unfold handle_knock_cycle ; simp

theorem handle_knock_cycle_third_pair (st : EngineState) (o : Option Nat) :
    handle_knock_cycle st "third" o =
      ((handle_knock_cycle st "third" o).1, none) := by
  unfold handle_knock_cycle ; simp

theorem knock_loop_first_eq (sp cp : Nat) (n : Nat) (st : EngineState) :
    knock_loop (fun x => { x with knocks_first := x.knocks_first + 1 }) "first"
      (some sp) (some cp) n st =
      ((knockUnit "first" sp cp)^[n] st, none) := by
  induction n generalizing st with
  | zero => simp [knock_loop]
  | succ k ih =>
      unfold knock_loop
      dsimp only
      rw [handle_knock_cycle_first_pair]
      dsimp only
      rw [ih, Function.iterate_succ_apply]
      simp [knockUnit, knockBump]

theorem knock_loop_second_eq (sp cp : Nat) (n : Nat) (st : EngineState) :
    knock_loop (fun x => { x with knocks_second := x.knocks_second + 1 }) "second"
      (some sp) (some cp) n st =
      ((knockUnit "second" sp cp)^[n] st, none) := by
  induction n generalizing st with
  | zero => simp [knock_loop]
  | succ k ih =>
      unfold knock_loop
      dsimp only
      rw [handle_knock_cycle_second_pair]
      dsimp only
      rw [ih, Function.iterate_succ_apply]
      simp [knockUnit, knockBump]

theorem knock_loop_third_eq (sp cp : Nat) (n : Nat) (st : EngineState) :
    knock_loop (fun x => { x with knocks_third := x.knocks_third + 1 }) "third"
      (some sp) (some cp) n st =
      ((knockUnit "third" sp cp)^[n] st, none) := by
  induction n generalizing st with
  | zero => simp [knock_loop]
  | succ k ih =>
      unfold knock_loop
      dsimp only
      rw [handle_knock_cycle_third_pair]
      dsimp only
      rw [ih, Function.iterate_succ_apply]
      simp [knockUnit, knockBump]

theorem apply_knock_eq (st : EngineState) (f s t : Int) (sp cp : Nat) :
    apply_knock st f s t (some sp) (some cp) =
      ((knockUnit "third" sp cp)^[t.toNat]
        ((knockUnit "second" sp cp)^[s.toNat]
          ((knockUnit "first" sp cp)^[f.toNat] st)), none) := by
  unfold apply_knock
  rw [knock_loop_first_eq]
  dsimp only
  rw [knock_loop_second_eq]
  dsimp only
  rw [knock_loop_third_eq]

theorem record_knock_eq (st : EngineState) (f s t : Int) (sp cp : Nat)
    (hs : st.game.offensive_shooter_id = some sp)
    (hc : st.game.defensive_catcher_id = some cp) :
    record_knock st f s t =
      (log_event
        ((knockUnit "third" sp cp)^[t.toNat]
          ((knockUnit "second" sp cp)^[s.toNat]
            ((knockUnit "first" sp cp)^[f.toNat] (mark_in_progress st))))
        EventType.knock "update" (some sp) (some cp) (some (f, s, t)), none) := by
  unfold record_knock
  dsimp only
  rw [show (mark_in_progress st).game.offensive_shooter_id = some sp from by
      simpa using hs,
    show (mark_in_progress st).game.defensive_catcher_id = some cp from by
      simpa using hc]
  dsimp only
  rw [apply_knock_eq]


/-! ### One knock unit behaves like the matching shot outcome without
touching strikes or the shot counters (towards C8) -/

theorem knockUnit_first_game (st1 : EngineState) (sp cp : Nat) :
    (knockUnit "first" sp cp st1).game =
      { (apply_shot st1 "first" (some sp) (some cp)).1.game with
          strikes := st1.game.strikes } := by
  apply Game.ext <;>
    simp [knockUnit, knockBump, handle_knock_cycle, apply_shot, bump]

theorem knockUnit_first_pf (st1 : EngineState) (sp cp : Nat) (q : Nat) :
    ((knockUnit "first" sp cp st1).stats q).points_for =
      ((apply_shot st1 "first" (some sp) (some cp)).1.stats q).points_for := by
  by_cases h3 : st1.game.third_base <;> by_cases hq : q = sp <;>
    by_cases hqc : q = cp <;> by_cases hsc : sp = cp <;>
    simp [knockUnit, knockBump, handle_knock_cycle, apply_shot, bump,
      bumpStats_some_apply, h3, hq, hqc, hsc] <;> simp_all

theorem knockUnit_first_stats_frame (st1 : EngineState) (sp cp : Nat) (q : Nat) :
    (knockUnit "first" sp cp st1).stats q =
      { st1.stats q with
          points_for := ((knockUnit "first" sp cp st1).stats q).points_for,
          knocks_first := ((knockUnit "first" sp cp st1).stats q).knocks_first } := by
  apply Stats.ext <;>
    by_cases h3 : st1.game.third_base <;> by_cases hq : q = sp <;>
      by_cases hqc : q = cp <;> by_cases hsc : sp = cp <;>
      simp [knockUnit, knockBump, handle_knock_cycle, bump,
        bumpStats_some_apply, h3, hq, hqc, hsc] <;> simp_all

theorem knockUnit_first_knocks (st1 : EngineState) (sp cp : Nat) :
    ((knockUnit "first" sp cp st1).stats cp).knocks_first =
      (st1.stats cp).knocks_first + 1 := by
  by_cases h3 : st1.game.third_base <;> by_cases hq : cp = sp <;>
    simp [knockUnit, knockBump, handle_knock_cycle, bump,
      bumpStats_some_apply, h3, hq]

theorem knockUnit_first_events (st1 : EngineState) (sp cp : Nat) :
    (knockUnit "first" sp cp st1).events = st1.events := by
  simp [knockUnit, knockBump, handle_knock_cycle]

theorem knockUnit_first_credit (st1 : EngineState) (sp cp : Nat) :
    ((knockUnit "first" sp cp st1).stats sp).points_for +
        st1.game.home_score + st1.game.away_score =
      (st1.stats sp).points_for +
        (knockUnit "first" sp cp st1).game.home_score +
        (knockUnit "first" sp cp st1).game.away_score := by
  by_cases h3 : st1.game.third_base <;> by_cases hq : sp = cp <;>
    by_cases hh : st1.game.half = HalfInning.top <;>
    simp [knockUnit, knockBump, handle_knock_cycle, bump,
      bumpStats_some_apply, h3, hq, hh] <;> omega

theorem knockUnit_second_game (st1 : EngineState) (sp cp : Nat) :
    (knockUnit "second" sp cp st1).game =
      { (apply_shot st1 "second" (some sp) (some cp)).1.game with
          strikes := st1.game.strikes } := by
  apply Game.ext <;>
    simp [knockUnit, knockBump, handle_knock_cycle, apply_shot, bump]

set_option maxHeartbeats 1600000 in
theorem knockUnit_second_pf (st1 : EngineState) (sp cp : Nat) (q : Nat) :
    ((knockUnit "second" sp cp st1).stats q).points_for =
      ((apply_shot st1 "second" (some sp) (some cp)).1.stats q).points_for := by
  by_cases h2 : st1.game.second_base <;> by_cases h3 : st1.game.third_base <;> by_cases hq : q = sp <;>
    by_cases hqc : q = cp <;> by_cases hsc : sp = cp <;>
    simp [knockUnit, knockBump, handle_knock_cycle, apply_shot, bump,
      bumpStats_some_apply, h2, h3, hq, hqc, hsc] <;> simp_all

set_option maxHeartbeats 1600000 in
theorem knockUnit_second_stats_frame (st1 : EngineState) (sp cp : Nat) (q : Nat) :
    (knockUnit "second" sp cp st1).stats q =
      { st1.stats q with
          points_for := ((knockUnit "second" sp cp st1).stats q).points_for,
          knocks_second := ((knockUnit "second" sp cp st1).stats q).knocks_second } := by
  apply Stats.ext <;>
    by_cases h2 : st1.game.second_base <;> by_cases h3 : st1.game.third_base <;> by_cases hq : q = sp <;>
      by_cases hqc : q = cp <;> by_cases hsc : sp = cp <;>
      simp [knockUnit, knockBump, handle_knock_cycle, bump,
        bumpStats_some_apply, h2, h3, hq, hqc, hsc] <;> simp_all

set_option maxHeartbeats 1600000 in
theorem knockUnit_second_knocks (st1 : EngineState) (sp cp : Nat) :
    ((knockUnit "second" sp cp st1).stats cp).knocks_second =
      (st1.stats cp).knocks_second + 1 := by
  by_cases h2 : st1.game.second_base <;> by_cases h3 : st1.game.third_base <;> by_cases hq : cp = sp <;>
    simp [knockUnit, knockBump, handle_knock_cycle, bump,
      bumpStats_some_apply, h2, h3, hq]

theorem knockUnit_second_events (st1 : EngineState) (sp cp : Nat) :
    (knockUnit "second" sp cp st1).events = st1.events := by
  simp [knockUnit, knockBump, handle_knock_cycle]

set_option maxHeartbeats 1600000 in
theorem knockUnit_second_credit (st1 : EngineState) (sp cp : Nat) :
    ((knockUnit "second" sp cp st1).stats sp).points_for +
        st1.game.home_score + st1.game.away_score =
      (st1.stats sp).points_for +
        (knockUnit "second" sp cp st1).game.home_score +
        (knockUnit "second" sp cp st1).game.away_score := by
  by_cases h2 : st1.game.second_base <;> by_cases h3 : st1.game.third_base <;> by_cases hq : sp = cp <;>
    by_cases hh : st1.game.half = HalfInning.top <;>
    simp [knockUnit, knockBump, handle_knock_cycle, bump,
      bumpStats_some_apply, h2, h3, hq, hh] <;> omega

theorem knockUnit_third_game (st1 : EngineState) (sp cp : Nat) :
    (knockUnit "third" sp cp st1).game =
      { (apply_shot st1 "third" (some sp) (some cp)).1.game with
          strikes := st1.game.strikes } := by
  apply Game.ext <;>
    simp [knockUnit, knockBump, handle_knock_cycle, apply_shot, bump]

set_option maxHeartbeats 1600000 in
theorem knockUnit_third_pf (st1 : EngineState) (sp cp : Nat) (q : Nat) :
    ((knockUnit "third" sp cp st1).stats q).points_for =
      ((apply_shot st1 "third" (some sp) (some cp)).1.stats q).points_for := by
  by_cases h1 : st1.game.first_base <;> by_cases h2 : st1.game.second_base <;> by_cases h3 : st1.game.third_base <;> by_cases hq : q = sp <;>
    by_cases hqc : q = cp <;> by_cases hsc : sp = cp <;>
    simp [knockUnit, knockBump, handle_knock_cycle, apply_shot, bump,
      bumpStats_some_apply, h1, h2, h3, hq, hqc, hsc] <;> simp_all

set_option maxHeartbeats 1600000 in
theorem knockUnit_third_stats_frame (st1 : EngineState) (sp cp : Nat) (q : Nat) :
    (knockUnit "third" sp cp st1).stats q =
      { st1.stats q with
          points_for := ((knockUnit "third" sp cp st1).stats q).points_for,
          knocks_third := ((knockUnit "third" sp cp st1).stats q).knocks_third } := by
  apply Stats.ext <;>
    by_cases h1 : st1.game.first_base <;> by_cases h2 : st1.game.second_base <;> by_cases h3 : st1.game.third_base <;> by_cases hq : q = sp <;>
      by_cases hqc : q = cp <;> by_cases hsc : sp = cp <;>
      simp [knockUnit, knockBump, handle_knock_cycle, bump,
        bumpStats_some_apply, h1, h2, h3, hq, hqc, hsc] <;> simp_all

set_option maxHeartbeats 1600000 in
theorem knockUnit_third_knocks (st1 : EngineState) (sp cp : Nat) :
    ((knockUnit "third" sp cp st1).stats cp).knocks_third =
      (st1.stats cp).knocks_third + 1 := by
  by_cases h1 : st1.game.first_base <;> by_cases h2 : st1.game.second_base <;> by_cases h3 : st1.game.third_base <;> by_cases hq : cp = sp <;>
    simp [knockUnit, knockBump, handle_knock_cycle, bump,
      bumpStats_some_apply, h1, h2, h3, hq]

theorem knockUnit_third_events (st1 : EngineState) (sp cp : Nat) :
    (knockUnit "third" sp cp st1).events = st1.events := by
  simp [knockUnit, knockBump, handle_knock_cycle]

set_option maxHeartbeats 1600000 in
theorem knockUnit_third_credit (st1 : EngineState) (sp cp : Nat) :
    ((knockUnit "third" sp cp st1).stats sp).points_for +
        st1.game.home_score + st1.game.away_score =
      (st1.stats sp).points_for +
        (knockUnit "third" sp cp st1).game.home_score +
        (knockUnit "third" sp cp st1).game.away_score := by
  by_cases h1 : st1.game.first_base <;> by_cases h2 : st1.game.second_base <;> by_cases h3 : st1.game.third_base <;> by_cases hq : sp = cp <;>
    by_cases hh : st1.game.half = HalfInning.top <;>
    simp [knockUnit, knockBump, handle_knock_cycle, bump,
      bumpStats_some_apply, h1, h2, h3, hq, hh] <;> omega


/-! ### Claim theorem: knock applies its units in strict order (C8) -/

/-- C8: `record_knock(first, second, third)` applies its unit micro-events
in strict order — all first-units, then all second-units, then all
third-units, each recomputing from the base state left by the previous unit
(the iterated `knockUnit`) — and logs one knock record with the counts as
metadata; each unit behaves like the corresponding shot outcome's base
logic without resetting strikes and without touching any stat counter other
than the shooter's points_for and the catcher's per-base knock counter
(which it increments by 1 per unit), and every scored run is credited to
the shooter's points_for. -/
theorem knock_applies_units_in_order (st : EngineState) (f s t : Int)
    (sp cp : Nat)
    (hs : st.game.offensive_shooter_id = some sp)
    (hc : st.game.defensive_catcher_id = some cp) :
    record_knock st f s t =
      (log_event
        ((knockUnit "third" sp cp)^[t.toNat]
          ((knockUnit "second" sp cp)^[s.toNat]
            ((knockUnit "first" sp cp)^[f.toNat] (mark_in_progress st))))
        EventType.knock "update" (some sp) (some cp) (some (f, s, t)),
        none) ∧
    (∀ st1 : EngineState,
      (knockUnit "first" sp cp st1).game =
        { (apply_shot st1 "first" (some sp) (some cp)).1.game with
            strikes := st1.game.strikes } ∧
      (∀ q : Nat, ((knockUnit "first" sp cp st1).stats q).points_for =
        ((apply_shot st1 "first" (some sp) (some cp)).1.stats q).points_for) ∧
      (∀ q : Nat, (knockUnit "first" sp cp st1).stats q =
        { st1.stats q with
            points_for := ((knockUnit "first" sp cp st1).stats q).points_for,
            knocks_first := ((knockUnit "first" sp cp st1).stats q).knocks_first }) ∧
      ((knockUnit "first" sp cp st1).stats cp).knocks_first =
        (st1.stats cp).knocks_first + 1 ∧
      (knockUnit "first" sp cp st1).events = st1.events ∧
      ((knockUnit "first" sp cp st1).stats sp).points_for +
          st1.game.home_score + st1.game.away_score =
        (st1.stats sp).points_for +
          (knockUnit "first" sp cp st1).game.home_score +
          (knockUnit "first" sp cp st1).game.away_score) ∧
    (∀ st1 : EngineState,
      (knockUnit "second" sp cp st1).game =
        { (apply_shot st1 "second" (some sp) (some cp)).1.game with
            strikes := st1.game.strikes } ∧
      (∀ q : Nat, ((knockUnit "second" sp cp st1).stats q).points_for =
        ((apply_shot st1 "second" (some sp) (some cp)).1.stats q).points_for) ∧
      (∀ q : Nat, (knockUnit "second" sp cp st1).stats q =
        { st1.stats q with
            points_for := ((knockUnit "second" sp cp st1).stats q).points_for,
            knocks_second := ((knockUnit "second" sp cp st1).stats q).knocks_second }) ∧
      ((knockUnit "second" sp cp st1).stats cp).knocks_second =
        (st1.stats cp).knocks_second + 1 ∧
      (knockUnit "second" sp cp st1).events = st1.events ∧
      ((knockUnit "second" sp cp st1).stats sp).points_for +
          st1.game.home_score + st1.game.away_score =
        (st1.stats sp).points_for +
          (knockUnit "second" sp cp st1).game.home_score +
          (knockUnit "second" sp cp st1).game.away_score) ∧
    (∀ st1 : EngineState,
      (knockUnit "third" sp cp st1).game =
        { (apply_shot st1 "third" (some sp) (some cp)).1.game with
            strikes := st1.game.strikes } ∧
      (∀ q : Nat, ((knockUnit "third" sp cp st1).stats q).points_for =
        ((apply_shot st1 "third" (some sp) (some cp)).1.stats q).points_for) ∧
      (∀ q : Nat, (knockUnit "third" sp cp st1).stats q =
        { st1.stats q with
            points_for := ((knockUnit "third" sp cp st1).stats q).points_for,
            knocks_third := ((knockUnit "third" sp cp st1).stats q).knocks_third }) ∧
      ((knockUnit "third" sp cp st1).stats cp).knocks_third =
        (st1.stats cp).knocks_third + 1 ∧
      (knockUnit "third" sp cp st1).events = st1.events ∧
      ((knockUnit "third" sp cp st1).stats sp).points_for +
          st1.game.home_score + st1.game.away_score =
        (st1.stats sp).points_for +
          (knockUnit "third" sp cp st1).game.home_score +
          (knockUnit "third" sp cp st1).game.away_score) := by
  refine ⟨record_knock_eq st f s t sp cp hs hc, ?_, ?_, ?_⟩
  · intro st1
    exact ⟨knockUnit_first_game st1 sp cp, knockUnit_first_pf st1 sp cp,
      knockUnit_first_stats_frame st1 sp cp, knockUnit_first_knocks st1 sp cp,
      knockUnit_first_events st1 sp cp, knockUnit_first_credit st1 sp cp⟩
  · intro st1
    exact ⟨knockUnit_second_game st1 sp cp, knockUnit_second_pf st1 sp cp,
      knockUnit_second_stats_frame st1 sp cp, knockUnit_second_knocks st1 sp cp,
      knockUnit_second_events st1 sp cp, knockUnit_second_credit st1 sp cp⟩
  · intro st1
    exact ⟨knockUnit_third_game st1 sp cp, knockUnit_third_pf st1 sp cp,
      knockUnit_third_stats_frame st1 sp cp, knockUnit_third_knocks st1 sp cp,
      knockUnit_third_events st1 sp cp, knockUnit_third_credit st1 sp cp⟩

theorem knock_applies_units_in_order_witness :
    stA.game.offensive_shooter_id = some 1 ∧
    stA.game.defensive_catcher_id = some 3 ∧
    (record_knock stA 2 1 0).2 = none := by
  refine ⟨rfl, rfl, ?_⟩
  rw [(knock_applies_units_in_order stA 2 1 0 1 3 rfl rfl).1]

end BeerBaseball
